import Mathlib

/-!
# Verification of machine-api-provider-gcp

Shallow embedding of the GCP machine-api provider's termination monitor
(`pkg/termination/termination.go`) and of the machine lifecycle reconciler
exercised by the actuator tests, together with proofs of the specified
properties.

Conventions:
* Go strings are `String`, Go slices are `List`, Go `nil`-able slices and
  pointers are `Option`, machine integers are `Nat`.
* Fallible Go functions returning `(T, error)` become `Except String T`;
  functions returning only `error` become `Option String` (`none` = nil error)
  or `Except String Unit`.
* `corev1.ConditionStatus` and `metav1.ConditionStatus` are string types in Go;
  they are embedded as `String` with the literal values "True"/"False".
-/

/-- Go `corev1.ConditionTrue` / `metav1.ConditionTrue` (the string "True"). -/
def conditionTrue : String := "True"

/-- Go `corev1.ConditionFalse` / `metav1.ConditionFalse` (the string "False"). -/
def conditionFalse : String := "False"

namespace Termination

/-! ## Termination endpoint check (`termination.go`, `checkTerminationEndpoint`)

`checkTerminationEndpoint` performs one HTTP GET against the fixed metadata
URL.  The effectful HTTP exchange is embedded as an explicit input describing
its outcome: the request construction may fail, the transport (`Do`) may fail,
reading the body may fail, or a response with a status code and a body string
is obtained.  The Go function never reads `resp.StatusCode`; the status is
nevertheless part of the embedded outcome so that this independence is
provable rather than built in.
-/

/-- The fixed poll URL (`gcpTerminationEndpointURL`). -/
def gcpTerminationEndpointURL : String :=
  "http://169.254.169.254/computeMetadata/v1/instance/preempted"

/-- Outcome of one HTTP GET against the termination endpoint, as seen by
`checkTerminationEndpoint`: request-construction failure, transport failure
from `http.DefaultClient.Do`, body-read failure from `io.ReadAll`, or a
delivered response carrying a status code and a body. -/
inductive HttpOutcome where
  | requestErr (msg : String)
  | transportErr (msg : String)
  | readErr (status : Nat) (msg : String)
  | response (status : Nat) (body : String)
deriving DecidableEq

/-- Embedding of `handler.checkTerminationEndpoint` (termination.go:148-178).
Errors are returned for the three failure branches (with the source's wrapped
messages, including its "responce" typo); otherwise the result is
`true` exactly when the body equals the literal "TRUE", with no error. -/
def checkTerminationEndpoint (o : HttpOutcome) : Except String Bool :=
  match o with
  | .requestErr msg =>
      .error ("could not create request \"" ++ gcpTerminationEndpointURL ++ "\": " ++ msg)
  | .transportErr msg =>
      .error ("could not get URL \"" ++ gcpTerminationEndpointURL ++ "\": " ++ msg)
  | .readErr _ msg =>
      .error ("failed to read responce body: " ++ msg)
  | .response _ body =>
      if body = "TRUE" then
        .ok true
      else
        .ok false

/-! ## Node terminating condition (`termination.go`, lines 195-244)

`corev1.NodeCondition` is embedded with its fields relevant to this code;
`metav1.Time` values become `Nat` timestamps.  The Go functions act on
`node.Status.Conditions`; the embedding acts on that condition list directly.
`metav1.Now()` — the ambient clock read at the top of
`addNodeTerminationCondition` — becomes an explicit `now` argument. -/

/-- Embedding of `corev1.NodeCondition` (fields used by termination.go). -/
structure NodeCondition where
  type : String
  status : String
  lastHeartbeatTime : Nat
  lastTransitionTime : Nat
  reason : String
  message : String
deriving DecidableEq

/-- `terminatingConditionType` (termination.go:23). -/
def terminatingConditionType : String := "Terminating"

/-- `terminationRequestedReason` (termination.go:24). -/
def terminationRequestedReason : String := "TerminationRequested"

/-- The fresh condition built at the top of `addNodeTerminationCondition`
(termination.go:207-215): status True, both timestamps set to `now`. -/
def terminatingCondition (now : Nat) : NodeCondition :=
  { type := terminatingConditionType
    status := conditionTrue
    lastHeartbeatTime := now
    lastTransitionTime := now
    reason := terminationRequestedReason
    message := "The cloud provider has marked this instance for termination" }

/-- Embedding of `nodeHasTerminationCondition` (termination.go:195-202) over
`node.Status.Conditions`. -/
def nodeHasTerminationCondition (conditions : List NodeCondition) : Bool :=
  conditions.any (fun condition => condition.type == terminatingConditionType)

/-- The rebuild loop of `addNodeTerminationCondition` (termination.go:225-241):
non-terminating conditions are kept, a terminating condition with status True
is kept untouched, any other terminating condition is replaced by the fresh
condition. -/
def rebuildConditions (now : Nat) : List NodeCondition → List NodeCondition
  | [] => []
  | condition :: rest =>
      if condition.type ≠ terminatingConditionType then
        condition :: rebuildConditions now rest
      else if condition.status = conditionTrue then
        condition :: rebuildConditions now rest
      else
        terminatingCondition now :: rebuildConditions now rest

/-- Embedding of `addNodeTerminationCondition` (termination.go:206-244): when
no terminating condition is present the fresh one is appended at the end,
otherwise the condition list is rebuilt by the loop above. -/
def addNodeTerminationCondition (now : Nat) (conditions : List NodeCondition) :
    List NodeCondition :=
  if ¬ nodeHasTerminationCondition conditions then
    conditions ++ [terminatingCondition now]
  else
    rebuildConditions now conditions

/-- Predicate for counting conditions of the terminating type. -/
def isTerminatingType (condition : NodeCondition) : Bool :=
  condition.type == terminatingConditionType

end Termination

namespace Termination


/-! ## The poll loop `handler.run` (termination.go:94-146)

`run` first calls `wait.PollUntilContextCancel(ctx, pollInterval, true, ...)`
whose condition function performs one `checkTerminationEndpoint` per
invocation and stops on a true result or on an error; the wait helper itself
stops between invocations when the context is cancelled, returning
`context.Canceled`.  The embedding drives the loop from an oracle
`responses : Nat → HttpOutcome` giving the outcome of the i-th HTTP exchange,
and from `cancelFuel`, the number of condition invocations that happen before
cancellation is observed (cooperative cancellation is only observed between
iterations).  `checksUsed` counts how many endpoint checks were performed in
total, so the "one final best-effort check" of lines 108-114 is observable.
The choice of context for the node-marking phase (lines 119-134) is recorded
as `markingCtx`: `background` is the fresh `context.Background()` taken when
`ctx.Err() == context.Canceled`, `original` is the incoming `ctx`. -/

/-- How the embedded poll loop ended: the endpoint reported termination, the
context was cancelled first, or a check failed with an error. -/
inductive PollOutcome where
  | terminated
  | cancelled
  | failed (msg : String)
deriving DecidableEq

/-- The `wait.PollUntilContextCancel` loop of termination.go:98-106, driven by
the response oracle.  Returns the outcome together with the index one past the
last response consumed (= the number of endpoint checks performed). -/
def pollPhase (responses : Nat → HttpOutcome) : Nat → Nat → PollOutcome × Nat
  | 0, i => (.cancelled, i)
  | fuel + 1, i =>
      match checkTerminationEndpoint (responses i) with
      | .error e => (.failed e, i + 1)
      | .ok true => (.terminated, i + 1)
      | .ok false => pollPhase responses fuel (i + 1)

/-- Which context the node-marking poll of termination.go:133-143 is derived
from: the incoming (possibly cancelled) `ctx`, or a fresh
`context.Background()`. -/
inductive CtxKind where
  | original
  | background
deriving DecidableEq

/-- The node-marking retry loop of termination.go:135-143: one
`markNodeForDeletion` attempt per second under a 30-second timeout, stopping
on the first success; if the budget is exhausted the wait helper's error is
wrapped as "error marking node".  `markAttempts i` tells whether the i-th
attempt succeeds. -/
def markPhase (markAttempts : Nat → Bool) : Except String Unit :=
  if (List.range 30).any markAttempts then
    .ok ()
  else
    .error "error marking node: context deadline exceeded"

/-- Result of one execution of `handler.run`: the returned error value, the
total number of termination-endpoint checks performed, and the context the
node-marking phase was derived from (`none` when marking never ran). -/
structure RunResult where
  result : Except String Unit
  checksUsed : Nat
  markingCtx : Option CtxKind

/-- Embedding of termination.go:108-146, entered after the poll loop ended
without a non-Canceled error.  `ctxCancelled` tells whether `ctx.Err()` is
`context.Canceled` (in this embedding the context is cancelled exactly when
the poll loop ended by cancellation).  One further endpoint check is made; an
error is returned as is; a not-terminated result returns nil; otherwise the
marking context is `context.Background()` when the context was cancelled and
the incoming context otherwise, and the marking loop runs under it. -/
def runAfterPoll (responses : Nat → HttpOutcome) (ctxCancelled : Bool) (i : Nat)
    (markAttempts : Nat → Bool) : RunResult :=
  match checkTerminationEndpoint (responses i) with
  | .error e => { result := .error e, checksUsed := i + 1, markingCtx := none }
  | .ok false => { result := .ok (), checksUsed := i + 1, markingCtx := none }
  | .ok true =>
      let tmpctx := if ctxCancelled then CtxKind.background else CtxKind.original
      { result := markPhase markAttempts, checksUsed := i + 1, markingCtx := some tmpctx }

/-- Embedding of `handler.run` (termination.go:94-146).  A poll-loop error
other than `context.Canceled` is wrapped and returned at once (line 104-106);
termination and cancellation both fall through to `runAfterPoll`. -/
def run (responses : Nat → HttpOutcome) (cancelFuel : Nat)
    (markAttempts : Nat → Bool) : RunResult :=
  match pollPhase responses cancelFuel 0 with
  | (.failed e, i) =>
      { result := .error ("error polling termination endpoint: " ++ e),
        checksUsed := i, markingCtx := none }
  | (.terminated, i) => runAfterPoll responses false i markAttempts
  | (.cancelled, i) => runAfterPoll responses true i markAttempts

end Termination

namespace Machine

/-! ## Machine lifecycle reconciler (spec-modelled)

The reconciler implementation of `pkg/cloud/gcp/actuators/machine` is code of
this repository that is not among the provided sources; only its test file is.
The definitions in this namespace are therefore modelled from the
specification (§3 ProviderStatus, §4.1 UserDataResolver,
§4.2 InstanceSpecBuilder, §4.4 create(), §4.4 TargetPoolMembershipManager,
§7), with names and literal values pinned wherever the test file pins them. -/

/-- Embedding of `metav1.Condition` (fields checked by the tests): type,
status ("True"/"False"), reason, message. -/
structure Condition where
  type : String
  status : String
  reason : String
  message : String
deriving DecidableEq

/-- Modelled from the spec: the missing reconciler's "machine created"
condition type (`machinev1.MachineCreated`). -/
def machineCreated : String := "MachineCreated"

/-- Modelled from the spec: the missing reconciler's fixed success reason for
the machine-created condition (`machineCreationSucceedReason`). -/
def machineCreationSucceedReason : String := "MachineCreationSucceeded"

/-- Modelled from the spec: the missing reconciler's fixed success message for
the machine-created condition (`machineCreationSucceedMessage`). -/
def machineCreationSucceedMessage : String := "Machine successfully created"

/-- Modelled from the spec: the missing reconciler's "creation failed" reason
(`machineCreationFailedReason`). -/
def machineCreationFailedReason : String := "MachineCreationFailed"

/-- Modelled from the spec: a reason for the condition set on validation
failure ("condition set to False with a validation reason", §4.4); distinct
from the creation-failed reason. -/
def machineValidationFailedReason : String := "MachineValidationFailed"

/-- `machinev1.MachineClusterIDLabel` (value pinned by the test's expected
error message). -/
def machineClusterIDLabel : String := "machine.openshift.io/cluster-api-cluster"

/-- Modelled from the spec: the missing reconciler's condition bookkeeping —
the create-type entry of the provider status "is always refreshed in place,
never duplicated" (§3): an existing condition of the same type is replaced
where it stands, otherwise the new condition is appended. -/
def setStatusCondition (conditions : List Condition) (newCondition : Condition) :
    List Condition :=
  if conditions.any (fun c => c.type == newCondition.type) then
    conditions.map (fun c => if c.type == newCondition.type then newCondition else c)
  else
    conditions ++ [newCondition]

/-- Modelled from the spec: the missing reconciler's spec validation — "every
target pool name non-empty; required cluster-id label present and non-empty"
(§4.4).  A Go map lookup of an absent label yields "", so absent and empty
cluster-id labels coincide on `clusterID = ""`.  Messages are pinned by the
test's expected errors.  Returns `some message` on the first violation. -/
def validateMachine (targetPools : List String) (clusterID : String) : Option String :=
  if targetPools.any (fun pool => pool == "") then
    some "all target pools must have valid name"
  else if clusterID == "" then
    some ("machine is missing \"" ++ machineClusterIDLabel ++ "\" label")
  else
    none

/-- Outcome of the cloud gateway's `InstancesInsert` call: success, a generic
transport error, or a typed `googleapi.Error` with an HTTP-style status code
and a message. -/
inductive InstancesInsertResult where
  | success
  | genericError (msg : String)
  | googleapiError (code : Nat) (msg : String)
deriving DecidableEq

/-- The rendering of `googleapi.Error.Error()` as pinned by the test's
expected strings ("googleapi: Error 400: error"). -/
def googleapiErrorMessage (code : Nat) (msg : String) : String :=
  "googleapi: Error " ++ toString code ++ ": " ++ msg

/-- Modelled from the spec: the error kinds returned by the missing
reconciler's `create()` (§7): a terminal validation error, a permanent
configuration error (`machinecontroller.InvalidMachineConfiguration`, never
retried), or a transient gateway error surfaced verbatim. -/
inductive CreateError where
  | validationError (msg : String)
  | invalidMachineConfiguration (msg : String)
  | transientError (msg : String)
deriving DecidableEq

/-- Result of one completed `create()` call: the provider-status condition
list it leaves behind, the returned error value, and whether the cloud
gateway's insert was invoked. -/
structure CreateResult where
  conditions : List Condition
  err : Option CreateError
  gatewayCalled : Bool
deriving DecidableEq

/-- Modelled from the spec: the missing reconciler's `create()` (§4.4).
Validation failure is terminal: no cloud call is made, the machine-created
condition is set to False with a validation reason, and a validation error is
returned.  Otherwise the gateway insert runs with three outcomes:
(a) generic error — condition False with the creation-failed reason and the
raw error text, the returned error wraps the same text (message prefix pinned
by the test); (b) `googleapi` error — condition False, same reason, the
returned error classified as a permanent configuration error carrying the
provider's message (prefix pinned by the test); (c) success — condition True
with the fixed success reason/message, nil error. -/
def create (conditions0 : List Condition) (targetPools : List String)
    (clusterID : String) (insertResult : InstancesInsertResult) : CreateResult :=
  match validateMachine targetPools clusterID with
  | some msg =>
      { conditions := setStatusCondition conditions0
          { type := machineCreated, status := conditionFalse,
            reason := machineValidationFailedReason, message := msg }
        err := some (.validationError ("failed validating machine provider spec: " ++ msg))
        gatewayCalled := false }
  | none =>
      match insertResult with
      | .success =>
          { conditions := setStatusCondition conditions0
              { type := machineCreated, status := conditionTrue,
                reason := machineCreationSucceedReason,
                message := machineCreationSucceedMessage }
            err := none
            gatewayCalled := true }
      | .genericError msg =>
          { conditions := setStatusCondition conditions0
              { type := machineCreated, status := conditionFalse,
                reason := machineCreationFailedReason, message := msg }
            err := some (.transientError
              ("failed to create instance via compute service: " ++ msg))
            gatewayCalled := true }
      | .googleapiError code msg =>
          { conditions := setStatusCondition conditions0
              { type := machineCreated, status := conditionFalse,
                reason := machineCreationFailedReason,
                message := googleapiErrorMessage code msg }
            err := some (.invalidMachineConfiguration
              ("error launching instance: " ++ googleapiErrorMessage code msg))
            gatewayCalled := true }

/-- Predicate for counting machine-created conditions. -/
def isMachineCreatedType (c : Condition) : Bool :=
  c.type == machineCreated

/-! ## Target pool membership (spec-modelled, §4.4 TargetPoolMembershipManager) -/

/-- Modelled from the spec: the per-pool loop of the missing
`processTargetPools` — for every configured pool, query current membership and
invoke `applyFn` only when actual membership disagrees with `desiredMember`
(add when desired and absent, remove when undesired and present), skipping
silently on agreement; the first error aborts and is returned.  `member`
answers the gateway's membership query; `applyFn` returns `some msg` on
failure.  The second component records, in order, the pools `applyFn` was
invoked for. -/
def processPools (desired : Bool) (member : String → Bool)
    (applyFn : String → Option String) : List String → Option String × List String
  | [] => (none, [])
  | pool :: rest =>
      if member pool == desired then
        processPools desired member applyFn rest
      else
        match applyFn pool with
        | some e => (some e, [pool])
        | none =>
            let r := processPools desired member applyFn rest
            (r.1, pool :: r.2)

/-- Modelled from the spec: the missing `processTargetPools(desired, applyFn)`
— a deliberate no-op returning nil when the configured target-pool list is
unset (`none`, a Go nil slice) or empty, otherwise the per-pool loop. -/
def processTargetPools (targetPools : Option (List String)) (desired : Bool)
    (member : String → Bool) (applyFn : String → Option String) :
    Option String × List String :=
  match targetPools with
  | none => (none, [])
  | some pools =>
      if pools.length == 0 then
        (none, [])
      else
        processPools desired member applyFn pools

/-! ## Instance building (spec-modelled, §4.1, §4.2) -/

/-- Embedding of `machinev1.GCPNetworkInterface` (fields used by the builder);
an unset per-interface project id is the empty string, as in Go. -/
structure GCPNetworkInterface where
  projectID : String
  network : String
  subnetwork : String
deriving DecidableEq

/-- The network interface of the built `compute.Instance`: the two resource
name strings. -/
structure ComputeNetworkInterface where
  network : String
  subnetwork : String
deriving DecidableEq

/-- Modelled from the spec: the missing instance builder's network-interface
mapping (§4.2) — network resource name
`projects/{project}/global/networks/{network}`, subnetwork resource name the
region-qualified `projects/{project}/regions/{region}/networks/{network}`
(the spec's `{network}` placeholder, matching the test's expected string);
the project is the per-interface project id when set, else the top-level
provider-spec project id. -/
def buildNetworkInterface (specProjectID region : String)
    (nic : GCPNetworkInterface) : ComputeNetworkInterface :=
  let project := if nic.projectID ≠ "" then nic.projectID else specProjectID
  { network := "projects/" ++ project ++ "/global/networks/" ++ nic.network
    subnetwork := "projects/" ++ project ++ "/regions/" ++ region
      ++ "/networks/" ++ nic.network }

/-- Modelled from the spec: the builder maps every configured network
interface in order. -/
def buildNetworkInterfaces (specProjectID region : String)
    (nics : List GCPNetworkInterface) : List ComputeNetworkInterface :=
  nics.map (buildNetworkInterface specProjectID region)

/-- The Windows bootstrap-script metadata key (`windowsScriptMetadataKey`). -/
def windowsScriptMetadataKey : String := "sysprep-specialize-script-ps1"

/-- The metadata key for non-Windows user data. -/
def userDataMetadataKey : String := "user-data"

/-- `userDataSecretKey`, the secret field holding the bootstrap blob (value
pinned by the test's expected error message). -/
def userDataSecretKey : String := "userData"

/-- The machine label carrying the OS id (pinned by the test). -/
def openshiftMachineOSLabel : String := "machine.openshift.io/os-id"

/-- Whether the machine's labels mark it as a Windows machine. -/
def machineIsWindows (labels : List (String × String)) : Bool :=
  labels.lookup openshiftMachineOSLabel == some "Windows"

/-- Modelled from the spec: the missing `getCustomUserData` (§4.1
UserDataResolver) — no secret reference yields an empty blob with no error;
a missing secret or a secret without the required data key is a configuration
error naming the secret; otherwise the blob under `userDataSecretKey`.
`secrets` is the secret store, keyed by name, each secret a field map. -/
def getCustomUserData (userDataSecret : Option String)
    (secrets : String → Option (List (String × String))) : Except String String :=
  match userDataSecret with
  | none => .ok ""
  | some name =>
      match secrets name with
      | none => .error ("error getting custom user data: secret " ++ name ++ " not found")
      | some data =>
          match data.lookup userDataSecretKey with
          | none => .error ("error getting custom user data: secret " ++ name
              ++ " does not have \"userData\" field set")
          | some blob => .ok blob

/-- Modelled from the spec: the missing builder's metadata assembly (§4.1,
§4.2) — the union of the explicit spec metadata and the resolver output, where
the bootstrap blob goes under the Windows script key for Windows-labeled
machines (under the user-data key otherwise) and an explicit entry under that
same key wins, the secret-derived blob being discarded. -/
def buildMetadata (isWindows : Bool) (metadata : List (String × Option String))
    (userData : String) : List (String × Option String) :=
  let key := if isWindows then windowsScriptMetadataKey else userDataMetadataKey
  if userData == "" then
    metadata
  else if metadata.any (fun item => item.1 == key) then
    metadata
  else
    metadata ++ [(key, some userData)]

/-- Embedding of `machinev1.GCPMachineProviderSpec` (fields used here).
`metadata` pairs a key with a `*string` value; `targetPools` is a Go slice
that may be nil. -/
structure GCPMachineProviderSpec where
  projectID : String
  region : String
  zone : String
  networkInterfaces : List GCPNetworkInterface
  metadata : List (String × Option String)
  targetPools : Option (List String)
  userDataSecret : Option String
deriving DecidableEq

/-- The parts of the built `compute.Instance` description the claims are
about. -/
structure Instance where
  networkInterfaces : List ComputeNetworkInterface
  metadataItems : List (String × Option String)
deriving DecidableEq

/-- Modelled from the spec: the missing instance builder (§4.2) — a
deterministic, pure mapping of the desired spec and the resolved user data to
a provider instance description. -/
def buildInstanceFromSpec (labels : List (String × String))
    (spec : GCPMachineProviderSpec) (userData : String) : Instance :=
  { networkInterfaces :=
      buildNetworkInterfaces spec.projectID spec.region spec.networkInterfaces
    metadataItems := buildMetadata (machineIsWindows labels) spec.metadata userData }

end Machine

namespace Termination

theorem rebuildConditions_countP (now : Nat) (l : List NodeCondition) :
    (rebuildConditions now l).countP isTerminatingType = l.countP isTerminatingType := by
  induction l with
  | nil => rfl
  | cons c rest ih =>
      by_cases hty : c.type = terminatingConditionType
      · by_cases hst : c.status = conditionTrue
        · simp [rebuildConditions, hty, hst, List.countP_cons, ih]
        · simp [rebuildConditions, hty, hst, List.countP_cons, ih,
            isTerminatingType, terminatingCondition]
      · simp [rebuildConditions, hty, List.countP_cons, ih, isTerminatingType]

theorem rebuildConditions_of_all_true (now : Nat) (l : List NodeCondition)
    (h : ∀ c ∈ l, c.type = terminatingConditionType → c.status = conditionTrue) :
    rebuildConditions now l = l := by
  induction l with
  | nil => rfl
  | cons c rest ih =>
      have hrest : rebuildConditions now rest = rest :=
        ih (fun d hd => h d (List.mem_cons_of_mem c hd))
      by_cases hty : c.type = terminatingConditionType
      · have hst : c.status = conditionTrue := h c (List.mem_cons_self c rest) hty
        simp [rebuildConditions, hty, hst, hrest]
      · simp [rebuildConditions, hty, hrest]

theorem rebuildConditions_replaces (now : Nat) (l : List NodeCondition) :
    rebuildConditions now l
      = l.map (fun c =>
          if c.type = terminatingConditionType ∧ c.status ≠ conditionTrue then
            terminatingCondition now
          else c) := by
  induction l with
  | nil => rfl
  | cons c rest ih =>
      by_cases hty : c.type = terminatingConditionType
      · by_cases hst : c.status = conditionTrue
        · simp [rebuildConditions, hty, hst, ih]
        · simp [rebuildConditions, hty, hst, ih]
      · simp [rebuildConditions, hty, ih]

theorem countP_pos_of_hasTermination (l : List NodeCondition)
    (h : nodeHasTerminationCondition l = true) : 0 < l.countP isTerminatingType := by
  rcases List.any_eq_true.mp h with ⟨c, hc, hty⟩
  exact List.countP_pos_iff.mpr ⟨c, hc, hty⟩

theorem countP_eq_zero_of_not_hasTermination (l : List NodeCondition)
    (h : ¬ nodeHasTerminationCondition l = true) : l.countP isTerminatingType = 0 := by
  refine List.countP_eq_zero.mpr (fun c hc => ?_)
  intro hty
  exact h (List.any_eq_true.mpr ⟨c, hc, hty⟩)

theorem addNodeTerminationCondition_countP (now : Nat) (l : List NodeCondition) :
    (addNodeTerminationCondition now l).countP isTerminatingType
      = if nodeHasTerminationCondition l then l.countP isTerminatingType
        else l.countP isTerminatingType + 1 := by
  by_cases h : nodeHasTerminationCondition l = true
  · simp [addNodeTerminationCondition, h, rebuildConditions_countP]
  · simp [addNodeTerminationCondition, h, List.countP_append,
      isTerminatingType, terminatingCondition]

theorem addNodeTerminationCondition_hasTermination (now : Nat) (l : List NodeCondition) :
    nodeHasTerminationCondition (addNodeTerminationCondition now l) = true := by
  have h := addNodeTerminationCondition_countP now l
  have hpos : 0 < (addNodeTerminationCondition now l).countP isTerminatingType := by
    by_cases hl : nodeHasTerminationCondition l = true
    · rw [h, if_pos hl]
      exact countP_pos_of_hasTermination l hl
    · rw [h, if_neg hl]
      omega
  rcases List.countP_pos_iff.mp hpos with ⟨c, hc, hty⟩
  exact List.any_eq_true.mpr ⟨c, hc, hty⟩

theorem countP_le_one_unique {α : Type} (p : α → Bool) (l : List α)
    (h : l.countP p ≤ 1) {a b : α} (ha : a ∈ l) (hpa : p a = true)
    (hb : b ∈ l) (hpb : p b = true) : a = b := by
  induction l with
  | nil => cases ha
  | cons x xs ih =>
      rw [List.countP_cons] at h
      by_cases hx : p x = true
      · have hxs : xs.countP p = 0 := by
          rw [if_pos hx] at h
          omega
        have hnone : ∀ c ∈ xs, ¬ p c = true := List.countP_eq_zero.mp hxs
        have ha' : a = x := by
          rcases List.mem_cons.mp ha with h1 | h1
          · exact h1
          · exact absurd hpa (hnone a h1)
        have hb' : b = x := by
          rcases List.mem_cons.mp hb with h1 | h1
          · exact h1
          · exact absurd hpb (hnone b h1)
        rw [ha', hb']
      · have hle : xs.countP p ≤ 1 := by
          rw [if_neg hx] at h
          omega
        have ha' : a ∈ xs := by
          rcases List.mem_cons.mp ha with h1 | h1
          · rw [h1] at hpa
            exact absurd hpa hx
          · exact h1
        have hb' : b ∈ xs := by
          rcases List.mem_cons.mp hb with h1 | h1
          · rw [h1] at hpb
            exact absurd hpb hx
          · exact h1
        exact ih hle ha' hb'

end Termination

/-- C2 counterexample: a condition list that already carries two conditions of
the Terminating type (one True, one False) still carries two of them after
applying `addNodeTerminationCondition` twice, so the claim's universally
quantified "at most one condition of the Terminating type" fails as stated. -/
theorem addNodeTerminationCondition_twice_cex :
    ¬ (((Termination.addNodeTerminationCondition 2
          (Termination.addNodeTerminationCondition 1
            [{ type := "Terminating", status := "True", lastHeartbeatTime := 0,
               lastTransitionTime := 0, reason := "r", message := "m" },
             { type := "Terminating", status := "False", lastHeartbeatTime := 0,
               lastTransitionTime := 0, reason := "r", message := "m" }])).countP
          Termination.isTerminatingType) ≤ 1) := by
  decide

/-- C2 (amended): for every node condition list carrying at most one condition
of the Terminating type, applying `addNodeTerminationCondition` twice yields at
most one condition of that type; if the list already contains a Terminating
condition with status True the whole list is left entirely unchanged (never
downgraded, timestamps not refreshed); if the Terminating condition is absent
the fresh True condition is appended; if present with a non-True status it is
substituted in place by the fresh True condition. -/
theorem addNodeTerminationCondition_idempotent
    (conditions : List Termination.NodeCondition) (now1 now2 : Nat)
    (h : conditions.countP Termination.isTerminatingType ≤ 1) :
    ((Termination.addNodeTerminationCondition now2
        (Termination.addNodeTerminationCondition now1 conditions)).countP
        Termination.isTerminatingType) ≤ 1
    ∧ ((∃ c ∈ conditions, c.type = Termination.terminatingConditionType
          ∧ c.status = conditionTrue) →
        Termination.addNodeTerminationCondition now1 conditions = conditions)
    ∧ ((∀ c ∈ conditions, c.type ≠ Termination.terminatingConditionType) →
        Termination.addNodeTerminationCondition now1 conditions
          = conditions ++ [Termination.terminatingCondition now1])
    ∧ (Termination.nodeHasTerminationCondition conditions = true →
        (∀ c ∈ conditions, c.type = Termination.terminatingConditionType →
          c.status ≠ conditionTrue) →
        Termination.addNodeTerminationCondition now1 conditions
          = conditions.map (fun c =>
              if c.type = Termination.terminatingConditionType
                  ∧ c.status ≠ conditionTrue then
                Termination.terminatingCondition now1
              else c)) := by
  refine ⟨?_, ?_, ?_, ?_⟩
  · have h1 := Termination.addNodeTerminationCondition_countP now1 conditions
    have h2 := Termination.addNodeTerminationCondition_countP now2
      (Termination.addNodeTerminationCondition now1 conditions)
    rw [Termination.addNodeTerminationCondition_hasTermination now1 conditions] at h2
    rw [if_pos rfl] at h2
    by_cases hl : Termination.nodeHasTerminationCondition conditions = true
    · rw [h2, h1, if_pos hl]
      exact h
    · rw [h2, h1, if_neg hl,
        Termination.countP_eq_zero_of_not_hasTermination conditions hl]
  · rintro ⟨c0, hc0, hty0, hst0⟩
    have hhas : Termination.nodeHasTerminationCondition conditions = true :=
      List.any_eq_true.mpr ⟨c0, hc0, by simp [hty0]⟩
    have hall : ∀ c ∈ conditions,
        c.type = Termination.terminatingConditionType → c.status = conditionTrue := by
      intro c hc hty
      have : c = c0 :=
        Termination.countP_le_one_unique Termination.isTerminatingType conditions h
          hc (by simp [Termination.isTerminatingType, hty])
          hc0 (by simp [Termination.isTerminatingType, hty0])
      rw [this, hst0]
    rw [Termination.addNodeTerminationCondition, if_neg (by simp [hhas])]
    exact Termination.rebuildConditions_of_all_true now1 conditions hall
  · intro hnone
    have hhas : ¬ Termination.nodeHasTerminationCondition conditions = true := by
      intro habs
      rcases List.any_eq_true.mp habs with ⟨c, hc, hty⟩
      exact hnone c hc (by simpa using hty)
    rw [Termination.addNodeTerminationCondition, if_pos hhas]
  · intro hhas _
    rw [Termination.addNodeTerminationCondition, if_neg (by simp [hhas])]
    exact Termination.rebuildConditions_replaces now1 conditions

/-- Witness for C2 (amended) at a concrete input: a list holding one Ready
condition and one False Terminating condition. -/
theorem addNodeTerminationCondition_idempotent_witness :
    ((Termination.addNodeTerminationCondition 2
        (Termination.addNodeTerminationCondition 1
          [{ type := "Ready", status := "True", lastHeartbeatTime := 0,
             lastTransitionTime := 0, reason := "r", message := "m" },
           { type := "Terminating", status := "False", lastHeartbeatTime := 0,
             lastTransitionTime := 0, reason := "r", message := "m" }])).countP
        Termination.isTerminatingType) ≤ 1 :=
  (addNodeTerminationCondition_idempotent
    [{ type := "Ready", status := "True", lastHeartbeatTime := 0,
       lastTransitionTime := 0, reason := "r", message := "m" },
     { type := "Terminating", status := "False", lastHeartbeatTime := 0,
       lastTransitionTime := 0, reason := "r", message := "m" }] 1 2 (by decide)).1

/-- C1: `checkTerminationEndpoint` returns terminated=true exactly for a body
equal to the literal "TRUE"; every other body (including "FALSE" and the empty
string) yields terminated=false with nil error; every transport failure yields
an error (distinct from the not-terminated outcome). -/
theorem checkTerminationEndpoint_body_semantics :
    (∀ status : Nat, ∀ body : String,
      Termination.checkTerminationEndpoint (.response status body) = .ok true ↔ body = "TRUE")
    ∧ (∀ status : Nat, ∀ body : String, body ≠ "TRUE" →
      Termination.checkTerminationEndpoint (.response status body) = .ok false)
    ∧ (∀ msg : String, ∃ e : String,
      Termination.checkTerminationEndpoint (.transportErr msg) = .error e) := by
  refine ⟨fun status body => ?_, fun status body h => ?_, fun msg => ⟨_, rfl⟩⟩
  · constructor
    · intro h
      by_contra hne
      simp [Termination.checkTerminationEndpoint, hne] at h
    · intro h
      simp [Termination.checkTerminationEndpoint, h]
  · simp [Termination.checkTerminationEndpoint, h]

/-- Witness for C1 at concrete inputs: body "TRUE" gives terminated, body
"FALSE" and "" give not-terminated with nil error, a transport failure gives
an error. -/
theorem checkTerminationEndpoint_body_semantics_witness :
    (Termination.checkTerminationEndpoint (.response 200 "TRUE") = .ok true)
    ∧ (Termination.checkTerminationEndpoint (.response 200 "FALSE") = .ok false)
    ∧ (Termination.checkTerminationEndpoint (.response 200 "") = .ok false)
    ∧ (∃ e, Termination.checkTerminationEndpoint (.transportErr "connection refused") = .error e) :=
  ⟨(checkTerminationEndpoint_body_semantics.1 200 "TRUE").2 rfl,
   checkTerminationEndpoint_body_semantics.2.1 200 "FALSE" (by decide),
   checkTerminationEndpoint_body_semantics.2.1 200 "" (by decide),
   checkTerminationEndpoint_body_semantics.2.2 "connection refused"⟩

/-- C10: `checkTerminationEndpoint` never inspects the HTTP status code: the
result is the same for any two status codes with the same body, a "TRUE" body
returns `(true, nil)` even under status 500, any other body returns
`(false, nil)` rather than an error, and every delivered response (whatever
its status) produces a non-error result. -/
theorem checkTerminationEndpoint_ignores_status :
    (∀ s1 s2 : Nat, ∀ body : String,
      Termination.checkTerminationEndpoint (.response s1 body)
        = Termination.checkTerminationEndpoint (.response s2 body))
    ∧ (Termination.checkTerminationEndpoint (.response 500 "TRUE") = .ok true)
    ∧ (∀ status : Nat, ∀ body : String, body ≠ "TRUE" →
      Termination.checkTerminationEndpoint (.response status body) = .ok false)
    ∧ (∀ status : Nat, ∀ body : String, ∃ b : Bool,
      Termination.checkTerminationEndpoint (.response status body) = .ok b) := by
  refine ⟨fun s1 s2 body => rfl, rfl, fun status body h => ?_, fun status body => ?_⟩
  · simp [Termination.checkTerminationEndpoint, h]
  · by_cases h : body = "TRUE"
    · exact ⟨true, by simp [Termination.checkTerminationEndpoint, h]⟩
    · exact ⟨false, by simp [Termination.checkTerminationEndpoint, h]⟩

/-- Witness for C10 at concrete inputs: a 500-status error page body is
not-terminated with nil error, and body "TRUE" under status 500 is terminated. -/
theorem checkTerminationEndpoint_ignores_status_witness :
    (Termination.checkTerminationEndpoint (.response 500 "TRUE") = .ok true)
    ∧ (Termination.checkTerminationEndpoint (.response 500 "Internal Server Error") = .ok false) :=
  ⟨checkTerminationEndpoint_ignores_status.2.1,
   checkTerminationEndpoint_ignores_status.2.2.1 500 "Internal Server Error" (by decide)⟩

/-- C3: when the poll loop of `run` is cancelled before observing termination,
exactly one additional best-effort endpoint check is performed after
cancellation; if that final check reports not-terminated, `run` returns nil
with no error; if it reports terminated, the subsequent node-marking phase is
derived from a fresh background context, not from the cancelled one. -/
theorem run_cancelled_one_final_check (responses : Nat → Termination.HttpOutcome)
    (cancelFuel : Nat) (markAttempts : Nat → Bool)
    (hcancel : (Termination.pollPhase responses cancelFuel 0).1
      = Termination.PollOutcome.cancelled) :
    (Termination.run responses cancelFuel markAttempts).checksUsed
      = (Termination.pollPhase responses cancelFuel 0).2 + 1
    ∧ (Termination.checkTerminationEndpoint
          (responses (Termination.pollPhase responses cancelFuel 0).2)
            = Except.ok false →
        (Termination.run responses cancelFuel markAttempts).result = Except.ok ())
    ∧ (Termination.checkTerminationEndpoint
          (responses (Termination.pollPhase responses cancelFuel 0).2)
            = Except.ok true →
        (Termination.run responses cancelFuel markAttempts).markingCtx
          = some Termination.CtxKind.background) := by
  rcases hp : Termination.pollPhase responses cancelFuel 0 with ⟨o, i⟩
  rw [hp] at hcancel
  obtain rfl : o = Termination.PollOutcome.cancelled := hcancel
  have hrun : Termination.run responses cancelFuel markAttempts
      = Termination.runAfterPoll responses true i markAttempts := by
    unfold Termination.run
    rw [hp]
  rw [hrun]
  rcases hc : Termination.checkTerminationEndpoint (responses i) with e | b
  · refine ⟨?_, ?_, ?_⟩
    · simp [Termination.runAfterPoll, hc]
    · intro h
      exact Except.noConfusion h
    · intro h
      exact Except.noConfusion h
  · cases b
    · refine ⟨?_, ?_, ?_⟩
      · simp [Termination.runAfterPoll, hc]
      · intro _
        simp [Termination.runAfterPoll, hc]
      · intro h
        simp at h
    · refine ⟨?_, ?_, ?_⟩
      · simp [Termination.runAfterPoll, hc]
      · intro h
        simp at h
      · intro _
        simp [Termination.runAfterPoll, hc]

/-- Witness for C3 at a concrete input: the endpoint always answers "FALSE",
cancellation is observed after two poll checks; `run` performs exactly one
more check (three in total) and returns nil. -/
theorem run_cancelled_one_final_check_witness :
    (Termination.run (fun _ => Termination.HttpOutcome.response 200 "FALSE") 2
        (fun _ => false)).checksUsed = 3
    ∧ (Termination.run (fun _ => Termination.HttpOutcome.response 200 "FALSE") 2
        (fun _ => false)).result = Except.ok () := by
  have h := run_cancelled_one_final_check
    (fun _ => Termination.HttpOutcome.response 200 "FALSE") 2 (fun _ => false) rfl
  exact ⟨h.1, h.2.1 rfl⟩

namespace Machine

theorem mem_setStatusCondition_self (conditions : List Condition) (c : Condition) :
    c ∈ setStatusCondition conditions c := by
  unfold setStatusCondition
  by_cases h : conditions.any (fun o => o.type == c.type) = true
  · rw [if_pos h]
    rcases List.any_eq_true.mp h with ⟨o, ho, hty⟩
    exact List.mem_map.mpr ⟨o, ho, by simp [hty]⟩
  · rw [if_neg h]
    exact List.mem_append.mpr (Or.inr (List.mem_singleton.mpr rfl))

theorem setStatusCondition_mem_eq (conditions : List Condition) (c d : Condition)
    (hd : d ∈ setStatusCondition conditions c) (hty : d.type = c.type) : d = c := by
  unfold setStatusCondition at hd
  by_cases h : conditions.any (fun o => o.type == c.type) = true
  · rw [if_pos h] at hd
    rcases List.mem_map.mp hd with ⟨o, _, heq⟩
    by_cases ho : o.type == c.type
    · rw [if_pos ho] at heq
      exact heq.symm
    · rw [if_neg ho] at heq
      rw [← heq] at hty
      exact absurd (by simp [hty]) ho
  · rw [if_neg h] at hd
    rcases List.mem_append.mp hd with hmem | hmem
    · exact absurd (List.any_eq_true.mpr ⟨d, hmem, by simp [hty]⟩) h
    · exact List.mem_singleton.mp hmem

theorem countP_map_replaceType (conditions : List Condition) (c : Condition)
    (hty : c.type = machineCreated) :
    ((conditions.map (fun o => if o.type == c.type then c else o)).countP
        isMachineCreatedType) = conditions.countP isMachineCreatedType := by
  induction conditions with
  | nil => rfl
  | cons o rest ih =>
      rw [List.map_cons, List.countP_cons, List.countP_cons, ih]
      congr 1
      by_cases ho : (o.type == c.type) = true
      · have ho2 : o.type = machineCreated := by
          rw [← hty]
          exact beq_iff_eq.mp ho
        rw [if_pos ho]
        simp [isMachineCreatedType, hty, ho2]
      · rw [if_neg ho]

theorem setStatusCondition_countP (conditions : List Condition) (c : Condition)
    (hty : c.type = machineCreated)
    (h : conditions.countP isMachineCreatedType ≤ 1) :
    (setStatusCondition conditions c).countP isMachineCreatedType = 1 := by
  unfold setStatusCondition
  by_cases hany : conditions.any (fun o => o.type == c.type) = true
  · rw [if_pos hany, countP_map_replaceType conditions c hty]
    rcases List.any_eq_true.mp hany with ⟨o, ho, hoc⟩
    have hpos : 0 < conditions.countP isMachineCreatedType := by
      refine List.countP_pos_iff.mpr ⟨o, ho, ?_⟩
      rw [isMachineCreatedType, ← hty]
      exact hoc
    omega
  · rw [if_neg hany, List.countP_append]
    have hzero : conditions.countP isMachineCreatedType = 0 := by
      refine List.countP_eq_zero.mpr (fun o ho hmo => ?_)
      refine hany (List.any_eq_true.mpr ⟨o, ho, ?_⟩)
      rw [isMachineCreatedType] at hmo
      rw [hty]
      exact hmo
    rw [hzero]
    simp [isMachineCreatedType, hty]

theorem create_countP (conditions0 : List Condition) (targetPools : List String)
    (clusterID : String) (insertResult : InstancesInsertResult)
    (h : conditions0.countP isMachineCreatedType ≤ 1) :
    ((create conditions0 targetPools clusterID insertResult).conditions.countP
        isMachineCreatedType) = 1 := by
  unfold create
  rcases validateMachine targetPools clusterID with _ | msg
  · rcases insertResult with _ | msg | ⟨code, msg⟩
    · exact setStatusCondition_countP conditions0 _ rfl h
    · exact setStatusCondition_countP conditions0 _ rfl h
    · exact setStatusCondition_countP conditions0 _ rfl h
  · exact setStatusCondition_countP conditions0 _ rfl h

end Machine

/-- C4 counterexample: a completed `create()` call that fails validation (a
target pool with an empty name) leaves exactly one machine-created condition,
but its reason is the validation reason, not the creation-failed reason; so
the claim's "on failure it is False with the creation-failed reason" fails as
stated for this completed call. -/
theorem create_failed_reason_cex :
    ((Machine.create [] [""] "CLUSTERID" Machine.InstancesInsertResult.success).err.isSome
      = true)
    ∧ ((Machine.create [] [""] "CLUSTERID"
        Machine.InstancesInsertResult.success).conditions.countP
        Machine.isMachineCreatedType = 1)
    ∧ (∀ c ∈ (Machine.create [] [""] "CLUSTERID"
        Machine.InstancesInsertResult.success).conditions,
        c.reason ≠ Machine.machineCreationFailedReason) := by
  decide

/-- C4 (amended): after every completed `create()` call starting from a
provider status holding at most one machine-created condition, exactly one
condition of the machine-created type remains and it reflects the call's final
outcome: success gives True with the fixed success reason/message, a gateway
insert failure gives False with the creation-failed reason and the error's
message, and a validation failure gives False with the validation reason;
repeated calls replace this condition in place and never append a second one. -/
theorem create_machineCreated_condition (conditions0 : List Machine.Condition)
    (targetPools : List String) (clusterID : String)
    (insertResult : Machine.InstancesInsertResult)
    (h : conditions0.countP Machine.isMachineCreatedType ≤ 1) :
    ((Machine.create conditions0 targetPools clusterID insertResult).conditions.countP
        Machine.isMachineCreatedType) = 1
    ∧ (Machine.validateMachine targetPools clusterID = none →
        insertResult = Machine.InstancesInsertResult.success →
        ∀ c ∈ (Machine.create conditions0 targetPools clusterID insertResult).conditions,
          c.type = Machine.machineCreated →
          c = { type := Machine.machineCreated, status := conditionTrue,
                reason := Machine.machineCreationSucceedReason,
                message := Machine.machineCreationSucceedMessage })
    ∧ (∀ msg, Machine.validateMachine targetPools clusterID = none →
        insertResult = Machine.InstancesInsertResult.genericError msg →
        ∀ c ∈ (Machine.create conditions0 targetPools clusterID insertResult).conditions,
          c.type = Machine.machineCreated →
          c = { type := Machine.machineCreated, status := conditionFalse,
                reason := Machine.machineCreationFailedReason, message := msg })
    ∧ (∀ code msg, Machine.validateMachine targetPools clusterID = none →
        insertResult = Machine.InstancesInsertResult.googleapiError code msg →
        ∀ c ∈ (Machine.create conditions0 targetPools clusterID insertResult).conditions,
          c.type = Machine.machineCreated →
          c = { type := Machine.machineCreated, status := conditionFalse,
                reason := Machine.machineCreationFailedReason,
                message := Machine.googleapiErrorMessage code msg })
    ∧ (∀ msg, Machine.validateMachine targetPools clusterID = some msg →
        ∀ c ∈ (Machine.create conditions0 targetPools clusterID insertResult).conditions,
          c.type = Machine.machineCreated →
          c = { type := Machine.machineCreated, status := conditionFalse,
                reason := Machine.machineValidationFailedReason, message := msg })
    ∧ (∀ targetPools2 clusterID2 insertResult2,
        ((Machine.create
            (Machine.create conditions0 targetPools clusterID insertResult).conditions
            targetPools2 clusterID2 insertResult2).conditions.countP
          Machine.isMachineCreatedType) = 1) := by
  refine ⟨Machine.create_countP conditions0 targetPools clusterID insertResult h,
    ?_, ?_, ?_, ?_, ?_⟩
  · intro hval hins c hc hcty
    rw [hins] at hc
    unfold Machine.create at hc
    rw [hval] at hc
    exact Machine.setStatusCondition_mem_eq conditions0 _ c hc hcty
  · intro msg hval hins c hc hcty
    rw [hins] at hc
    unfold Machine.create at hc
    rw [hval] at hc
    exact Machine.setStatusCondition_mem_eq conditions0 _ c hc hcty
  · intro code msg hval hins c hc hcty
    rw [hins] at hc
    unfold Machine.create at hc
    rw [hval] at hc
    exact Machine.setStatusCondition_mem_eq conditions0 _ c hc hcty
  · intro msg hval c hc hcty
    unfold Machine.create at hc
    rw [hval] at hc
    exact Machine.setStatusCondition_mem_eq conditions0 _ c hc hcty
  · intro targetPools2 clusterID2 insertResult2
    refine Machine.create_countP _ targetPools2 clusterID2 insertResult2 ?_
    rw [Machine.create_countP conditions0 targetPools clusterID insertResult h]

/-- Witness for C4 (amended) at a concrete input: a successful create on an
empty provider status. -/
theorem create_machineCreated_condition_witness :
    ((Machine.create [] [] "CLUSTERID"
        Machine.InstancesInsertResult.success).conditions.countP
      Machine.isMachineCreatedType) = 1 :=
  (create_machineCreated_condition [] [] "CLUSTERID"
    Machine.InstancesInsertResult.success (by decide)).1

/-- C5: when the gateway insert fails with a provider API error carrying an
HTTP-style status code, `create()` returns a permanent configuration error —
never a plain transient error — whose message contains the provider's message,
and the machine-created condition is set to False with the creation-failed
reason and that same provider message. -/
theorem create_googleapiError_permanent (conditions0 : List Machine.Condition)
    (targetPools : List String) (clusterID : String) (code : Nat) (msg : String)
    (hval : Machine.validateMachine targetPools clusterID = none) :
    ((Machine.create conditions0 targetPools clusterID
        (Machine.InstancesInsertResult.googleapiError code msg)).err
      = some (Machine.CreateError.invalidMachineConfiguration
          ("error launching instance: " ++ Machine.googleapiErrorMessage code msg)))
    ∧ (∃ pre post, "error launching instance: " ++ Machine.googleapiErrorMessage code msg
        = pre ++ msg ++ post)
    ∧ (∃ c ∈ (Machine.create conditions0 targetPools clusterID
        (Machine.InstancesInsertResult.googleapiError code msg)).conditions,
        c.type = Machine.machineCreated)
    ∧ (∀ c ∈ (Machine.create conditions0 targetPools clusterID
        (Machine.InstancesInsertResult.googleapiError code msg)).conditions,
        c.type = Machine.machineCreated →
        c.status = conditionFalse ∧ c.reason = Machine.machineCreationFailedReason
          ∧ c.message = Machine.googleapiErrorMessage code msg) := by
  have hcreate : Machine.create conditions0 targetPools clusterID
      (Machine.InstancesInsertResult.googleapiError code msg)
      = { conditions := Machine.setStatusCondition conditions0
            { type := Machine.machineCreated, status := conditionFalse,
              reason := Machine.machineCreationFailedReason,
              message := Machine.googleapiErrorMessage code msg }
          err := some (.invalidMachineConfiguration
            ("error launching instance: " ++ Machine.googleapiErrorMessage code msg))
          gatewayCalled := true } := by
    unfold Machine.create
    rw [hval]
  refine ⟨by rw [hcreate], ?_, ?_, ?_⟩
  · refine ⟨"error launching instance: " ++ ("googleapi: Error " ++ toString code ++ ": "),
      "", ?_⟩
    simp [Machine.googleapiErrorMessage, String.append_assoc, String.append_empty]
  · rw [hcreate]
    exact ⟨_, Machine.mem_setStatusCondition_self conditions0 _, rfl⟩
  · rw [hcreate]
    intro c hc hcty
    have := Machine.setStatusCondition_mem_eq conditions0 _ c hc hcty
    rw [this]
    exact ⟨rfl, rfl, rfl⟩

/-- Witness for C5 at the test's concrete input: a `googleapi.Error` with code
400 and message "error". -/
theorem create_googleapiError_permanent_witness :
    (Machine.create [] [] "CLUSTERID"
        (Machine.InstancesInsertResult.googleapiError 400 "error")).err
      = some (Machine.CreateError.invalidMachineConfiguration
          ("error launching instance: " ++ Machine.googleapiErrorMessage 400 "error")) :=
  (create_googleapiError_permanent [] [] "CLUSTERID" 400 "error" rfl).1

/-- C6: a machine spec failing `create()`'s validation — an empty configured
target pool name, or an absent/empty cluster-id label — yields a terminal
validation error, no cloud-gateway call, and the machine-created condition set
to False with a validation reason. -/
theorem create_validation_terminal (conditions0 : List Machine.Condition)
    (targetPools : List String) (clusterID : String)
    (insertResult : Machine.InstancesInsertResult)
    (h : targetPools.any (fun pool => pool == "") = true ∨ clusterID = "") :
    ((Machine.create conditions0 targetPools clusterID insertResult).gatewayCalled = false)
    ∧ (∃ msg, Machine.validateMachine targetPools clusterID = some msg
        ∧ (Machine.create conditions0 targetPools clusterID insertResult).err
          = some (Machine.CreateError.validationError
              ("failed validating machine provider spec: " ++ msg)))
    ∧ (∃ c ∈ (Machine.create conditions0 targetPools clusterID insertResult).conditions,
        c.type = Machine.machineCreated)
    ∧ (∀ c ∈ (Machine.create conditions0 targetPools clusterID insertResult).conditions,
        c.type = Machine.machineCreated →
        c.status = conditionFalse
          ∧ c.reason = Machine.machineValidationFailedReason) := by
  obtain ⟨msg, hmsg⟩ : ∃ msg, Machine.validateMachine targetPools clusterID = some msg := by
    by_cases hp : targetPools.any (fun pool => pool == "") = true
    · refine ⟨"all target pools must have valid name", ?_⟩
      unfold Machine.validateMachine
      rw [if_pos hp]
    · have hcid : clusterID = "" := h.resolve_left hp
      refine ⟨"machine is missing \"" ++ Machine.machineClusterIDLabel ++ "\" label", ?_⟩
      unfold Machine.validateMachine
      rw [if_neg hp, if_pos (by simp [hcid])]
  have hcreate : Machine.create conditions0 targetPools clusterID insertResult
      = { conditions := Machine.setStatusCondition conditions0
            { type := Machine.machineCreated, status := conditionFalse,
              reason := Machine.machineValidationFailedReason, message := msg }
          err := some (.validationError
            ("failed validating machine provider spec: " ++ msg))
          gatewayCalled := false } := by
    unfold Machine.create
    rw [hmsg]
  refine ⟨by rw [hcreate], ⟨msg, hmsg, by rw [hcreate]⟩, ?_, ?_⟩
  · rw [hcreate]
    exact ⟨_, Machine.mem_setStatusCondition_self conditions0 _, rfl⟩
  · rw [hcreate]
    intro c hc hcty
    have := Machine.setStatusCondition_mem_eq conditions0 _ c hc hcty
    rw [this]
    exact ⟨rfl, rfl⟩

/-- Witness for C6 at the test's concrete inputs: a target pool with an empty
name, and an empty cluster-id label. -/
theorem create_validation_terminal_witness :
    ((Machine.create [] [""] "CLUSTERID"
        Machine.InstancesInsertResult.success).gatewayCalled = false)
    ∧ ((Machine.create [] [] ""
        Machine.InstancesInsertResult.success).gatewayCalled = false) :=
  ⟨(create_validation_terminal [] [""] "CLUSTERID"
      Machine.InstancesInsertResult.success (Or.inl (by decide))).1,
   (create_validation_terminal [] [] ""
      Machine.InstancesInsertResult.success (Or.inr rfl)).1⟩

namespace Machine

theorem processPools_calls (desired : Bool) (member : String → Bool)
    (applyFn : String → Option String) (hok : ∀ pool, applyFn pool = none) :
    ∀ pools, (processPools desired member applyFn pools).2
      = pools.filter (fun pool => !(member pool == desired)) := by
  intro pools
  induction pools with
  | nil => rfl
  | cons pool rest ih =>
      by_cases hm : (member pool == desired) = true
      · simp [processPools, hm, ih, List.filter_cons]
      · simp [processPools, hm, hok pool, ih, List.filter_cons]

end Machine

/-- C7: `processTargetPools(desired, applyFn)` returns nil without invoking
the apply callback when the configured target-pool list is nil or empty,
regardless of desired membership; otherwise the callback is never invoked for
a pool whose current membership already agrees with the desired membership,
and is invoked exactly once per configured pool whose membership disagrees. -/
theorem processTargetPools_membership (desired : Bool) (member : String → Bool)
    (applyFn : String → Option String) (hok : ∀ pool, applyFn pool = none) :
    (Machine.processTargetPools none desired member applyFn = (none, []))
    ∧ (Machine.processTargetPools (some []) desired member applyFn = (none, []))
    ∧ (∀ pools pool,
        ((Machine.processTargetPools (some pools) desired member applyFn).2.count pool)
          = if member pool == desired then 0 else pools.count pool) := by
  refine ⟨rfl, rfl, fun pools pool => ?_⟩
  rcases pools with _ | ⟨first, rest⟩
  · by_cases hm : (member pool == desired) = true
    · rw [if_pos hm]
      rfl
    · rw [if_neg hm]
      rfl
  · have hproc : Machine.processTargetPools (some (first :: rest)) desired member applyFn
        = Machine.processPools desired member applyFn (first :: rest) := rfl
    rw [hproc, Machine.processPools_calls desired member applyFn hok]
    by_cases hm : (member pool == desired) = true
    · rw [if_pos hm]
      refine List.count_eq_zero.mpr (fun hmem => ?_)
      have hpred := (List.mem_filter.mp hmem).2
      rw [hm] at hpred
      exact Bool.noConfusion hpred
    · rw [if_neg hm]
      refine List.count_filter ?_
      rw [Bool.eq_false_iff.mpr hm]
      rfl

/-- Witness for C7 at concrete inputs: a nil pool list never invokes the
callback; a single disagreeing pool (present, desired absent) is applied to
exactly once. -/
theorem processTargetPools_membership_witness :
    (Machine.processTargetPools none false (fun _ => true) (fun _ => none) = (none, []))
    ∧ ((Machine.processTargetPools (some ["pool1"]) false (fun _ => true)
        (fun _ => none)).2.count "pool1" = 1) := by
  have h := processTargetPools_membership false (fun _ => true) (fun _ => none)
    (fun _ => rfl)
  refine ⟨h.1, ?_⟩
  rw [h.2.2 ["pool1"] "pool1"]
  decide

/-- C8: in every built instance description, each network interface's network
resource name is `projects/{project}/global/networks/{network}` and its
subnetwork resource name is the region-qualified
`projects/{project}/regions/{region}/networks/{network}`, where the project is
the per-interface project id when that interface sets one and the top-level
provider-spec project id otherwise; the per-interface value, when set, appears
in both resource names. -/
theorem buildInstance_networkInterface_names (labels : List (String × String))
    (spec : Machine.GCPMachineProviderSpec) (userData : String) (i : Nat)
    (hi : i < spec.networkInterfaces.length) :
    ∃ nic, spec.networkInterfaces[i]? = some nic
      ∧ (nic.projectID ≠ "" →
          (Machine.buildInstanceFromSpec labels spec userData).networkInterfaces[i]?
            = some { network := "projects/" ++ nic.projectID ++ "/global/networks/"
                        ++ nic.network
                     subnetwork := "projects/" ++ nic.projectID ++ "/regions/"
                        ++ spec.region ++ "/networks/" ++ nic.network })
      ∧ (nic.projectID = "" →
          (Machine.buildInstanceFromSpec labels spec userData).networkInterfaces[i]?
            = some { network := "projects/" ++ spec.projectID ++ "/global/networks/"
                        ++ nic.network
                     subnetwork := "projects/" ++ spec.projectID ++ "/regions/"
                        ++ spec.region ++ "/networks/" ++ nic.network }) := by
  obtain ⟨nic, hnic⟩ : ∃ nic, spec.networkInterfaces[i]? = some nic :=
    ⟨spec.networkInterfaces.get ⟨i, hi⟩, List.getElem?_eq_getElem hi⟩
  have hmap : (Machine.buildInstanceFromSpec labels spec userData).networkInterfaces[i]?
      = some (Machine.buildNetworkInterface spec.projectID spec.region nic) := by
    have h1 : (Machine.buildInstanceFromSpec labels spec userData).networkInterfaces
        = spec.networkInterfaces.map
            (Machine.buildNetworkInterface spec.projectID spec.region) := rfl
    rw [h1, List.getElem?_map, hnic]
    rfl
  refine ⟨nic, hnic, ?_, ?_⟩
  · intro hproj
    rw [hmap]
    simp [Machine.buildNetworkInterface, hproj]
  · intro hproj
    rw [hmap]
    simp [Machine.buildNetworkInterface, hproj]

/-- Witness for C8 at the test's concrete input: a network interface carrying
its own project id "network-project" under a provider spec with project id
"project"; the per-interface project appears in both resource names. -/
theorem buildInstance_networkInterface_names_witness :
    (Machine.buildInstanceFromSpec []
        { projectID := "project", region := "test-region", zone := "",
          networkInterfaces := [{ projectID := "network-project",
                                  network := "test-network",
                                  subnetwork := "test-subnetwork" }],
          metadata := [], targetPools := none, userDataSecret := none }
        "").networkInterfaces[0]?
      = some { network := "projects/network-project/global/networks/test-network",
               subnetwork :=
                 "projects/network-project/regions/test-region/networks/test-network" } := by
  obtain ⟨nic, hnic, htrue, hfalse⟩ := buildInstance_networkInterface_names []
    { projectID := "project", region := "test-region", zone := "",
      networkInterfaces := [{ projectID := "network-project",
                              network := "test-network",
                              subnetwork := "test-subnetwork" }],
      metadata := [], targetPools := none, userDataSecret := none }
    "" 0 (by decide)
  have hn : nic = { projectID := "network-project", network := "test-network",
                    subnetwork := "test-subnetwork" } := by
    symm
    simpa using hnic
  rw [htrue (by rw [hn]; decide), hn]
  rfl

/-- C9: for a Windows-labeled machine whose spec declares an explicit metadata
entry under the Windows script metadata key and whose user-data secret also
resolves to a bootstrap blob, the built instance's metadata contains exactly
one item with that key, and its value equals the explicit spec entry's value,
not the secret-derived blob. -/
theorem windows_metadata_explicit_wins (labels : List (String × String))
    (spec : Machine.GCPMachineProviderSpec)
    (secrets : String → Option (List (String × String))) (blob v : String)
    (hwin : Machine.machineIsWindows labels = true)
    (_hud : Machine.getCustomUserData spec.userDataSecret secrets = Except.ok blob)
    (hblob : blob ≠ "")
    (hcount : spec.metadata.countP
        (fun item => item.1 == Machine.windowsScriptMetadataKey) = 1)
    (hv : ∀ item ∈ spec.metadata,
        item.1 = Machine.windowsScriptMetadataKey → item.2 = some v) :
    ((Machine.buildInstanceFromSpec labels spec blob).metadataItems.countP
        (fun item => item.1 == Machine.windowsScriptMetadataKey) = 1)
    ∧ (∀ item ∈ (Machine.buildInstanceFromSpec labels spec blob).metadataItems,
        item.1 = Machine.windowsScriptMetadataKey → item.2 = some v)
    ∧ (v ≠ blob →
        ∀ item ∈ (Machine.buildInstanceFromSpec labels spec blob).metadataItems,
          item.1 = Machine.windowsScriptMetadataKey → item.2 ≠ some blob) := by
  have hany : spec.metadata.any
      (fun item => item.1 == Machine.windowsScriptMetadataKey) = true := by
    have hpos : 0 < spec.metadata.countP
        (fun item => item.1 == Machine.windowsScriptMetadataKey) := by
      omega
    rcases List.countP_pos_iff.mp hpos with ⟨item, hmem, hitem⟩
    exact List.any_eq_true.mpr ⟨item, hmem, hitem⟩
  have hbuild : (Machine.buildInstanceFromSpec labels spec blob).metadataItems
      = spec.metadata := by
    have h1 : (Machine.buildInstanceFromSpec labels spec blob).metadataItems
        = Machine.buildMetadata (Machine.machineIsWindows labels) spec.metadata blob := rfl
    rw [h1, hwin]
    have hb : (blob == "") = false := beq_eq_false_iff_ne.mpr hblob
    simp [Machine.buildMetadata, hb, hany]
  rw [hbuild]
  refine ⟨hcount, hv, fun hne item hmem hkey => ?_⟩
  rw [hv item hmem hkey]
  exact fun heq => hne (Option.some.inj heq)

/-- Witness for C9 at the test's concrete input: the explicit metadata entry
"the proper script value" wins over the secret-derived blob. -/
theorem windows_metadata_explicit_wins_witness :
    ((Machine.buildInstanceFromSpec
        [("machine.openshift.io/os-id", "Windows")]
        { projectID := "", region := "", zone := "", networkInterfaces := [],
          metadata := [(Machine.windowsScriptMetadataKey, some "the proper script value")],
          targetPools := none, userDataSecret := some "windows-user-data" }
        "this should be overridden by the metadata value").metadataItems.countP
        (fun item => item.1 == Machine.windowsScriptMetadataKey) = 1) :=
  (windows_metadata_explicit_wins
    [("machine.openshift.io/os-id", "Windows")]
    { projectID := "", region := "", zone := "", networkInterfaces := [],
      metadata := [(Machine.windowsScriptMetadataKey, some "the proper script value")],
      targetPools := none, userDataSecret := some "windows-user-data" }
    (fun name => if name == "windows-user-data" then
        some [("userData", "this should be overridden by the metadata value")]
      else none)
    "this should be overridden by the metadata value"
    "the proper script value"
    rfl rfl (by decide) (by decide) (by decide)).1
